import Mathlib

/-!
Shallow embedding of the NES CPU core (`src/nes/cpu.rs`, `src/nes/instruction.rs`)
and proofs about its specification.

Machine integers are modelled as `Nat` with explicit `% 256` where the Rust
code truncates (`as u8`), and explicit checks where a Rust debug build would
panic on arithmetic overflow.  Rust panics (`unimplemented!`, out-of-bounds
indexing, `+=` overflow) are modelled by the `StepResult.panicked` /
`ExecResult.panicked` constructors carrying the panic message: the Rust function
`execute_commands` returns `()` and aborts on these paths, it has no error-result
channel.
-/

namespace Nes

/-- The status register, `bitflags! CpuFlags` in `cpu.rs`: eight independent
boolean flags packed in one byte.  `one` is the hardware-constant bit 5,
`brk` is the BREAK bit. -/
structure CpuFlags where
  carry : Bool
  zero : Bool
  interrupt_disable : Bool
  decimal_mode : Bool
  brk : Bool
  one : Bool
  overflow : Bool
  negative : Bool
deriving DecidableEq, Repr

/-- The CPU register file, `struct CPU` in `cpu.rs`.  `program_counter` is u16,
the other numeric registers are u8; all are modelled as `Nat`. -/
structure CPU where
  program_counter : Nat
  stack_pointer : Nat
  accumulator : Nat
  register_x : Nat
  register_y : Nat
  status : CpuFlags
deriving DecidableEq, Repr

/-- `CPU::new()`: every register zero, status holds only the constant ONE bit. -/
def CPU.new : CPU :=
  { program_counter := 0
    stack_pointer := 0
    accumulator := 0
    register_x := 0
    register_y := 0
    status :=
      { carry := false, zero := false, interrupt_disable := false,
        decimal_mode := false, brk := false, one := true,
        overflow := false, negative := false } }

/-- `set_carry_flag`: `status.set(CARRY, value)`. -/
def CPU.set_carry_flag (cpu : CPU) (value : Bool) : CPU :=
  { cpu with status := { cpu.status with carry := value } }

/-- `update_zero_flag`: `status.set(ZERO, value == 0)`. -/
def CPU.update_zero_flag (cpu : CPU) (value : Nat) : CPU :=
  { cpu with status := { cpu.status with zero := value == 0 } }

/-- `update_negative_flag`: `status.set(NEGATIVE, (value & 0b1000_0000) != 0)`. -/
def CPU.update_negative_flag (cpu : CPU) (value : Nat) : CPU :=
  { cpu with status := { cpu.status with negative := (value &&& 128) != 0 } }

/-- `set_accumulator`: assign the accumulator, then update Zero and Negative
from the new accumulator value. -/
def CPU.set_accumulator (cpu : CPU) (value : Nat) : CPU :=
  let cpu1 : CPU := { cpu with accumulator := value }
  let cpu2 := cpu1.update_zero_flag cpu1.accumulator
  cpu2.update_negative_flag cpu2.accumulator

/-- `add_to_accumulator`: 16-bit sum of accumulator, operand and incoming
carry; Carry is set from `sum & 256`, Overflow from `sum & 128`; the low byte
of the sum (`sum as u8`) becomes the accumulator. -/
def CPU.add_to_accumulator (cpu : CPU) (value : Nat) : CPU :=
  let carry : Nat := if cpu.status.carry then 1 else 0
  let sum : Nat := cpu.accumulator + value + carry
  let cpu1 : CPU := { cpu with status := { cpu.status with carry := (sum &&& 256) != 0 } }
  let cpu2 : CPU := { cpu1 with status := { cpu1.status with overflow := (sum &&& 128) != 0 } }
  cpu2.set_accumulator (sum % 256)

/-- `adc`: delegates to `add_to_accumulator`. -/
def CPU.adc (cpu : CPU) (value : Nat) : CPU :=
  cpu.add_to_accumulator value

/-- `lda`: delegates to `set_accumulator`. -/
def CPU.lda (cpu : CPU) (value : Nat) : CPU :=
  cpu.set_accumulator value

/-- `tax`: copy the accumulator into register X, then update Zero and
Negative from register X. -/
def CPU.tax (cpu : CPU) : CPU :=
  let cpu1 : CPU := { cpu with register_x := cpu.accumulator }
  let cpu2 := cpu1.update_zero_flag cpu1.register_x
  cpu2.update_negative_flag cpu2.register_x

/-- Message of the `unimplemented!("That opcode unimplemented")` panic in
`execute_commands`. -/
def unimplementedMsg : String := "That opcode unimplemented"

/-- Message of the Rust panic on out-of-bounds `Vec` indexing, raised when an
operand byte is read past the end of the command list. -/
def indexOutOfBoundsMsg : String := "index out of bounds"

/-- Message of the Rust debug-build panic when `program_counter += 1`
overflows the u16 range. -/
def pcOverflowMsg : String := "attempt to add with overflow"

/-- Outcome of one iteration of the `execute_commands` loop body:
`done` models the early `return` when the program counter runs past the end,
`ok` models falling through to the next iteration, `panicked` models a Rust
panic (abort) with its message. -/
inductive StepResult where
  | ok (cpu : CPU)
  | done (cpu : CPU)
  | panicked (msg : String)
deriving DecidableEq, Repr

/-- Outcome of `execute_commands`: the Rust function returns `()` after
mutating the CPU in place (`ok` carries the final state), or aborts with a
panic (`panicked`).  There is no error-result channel in the source. -/
inductive ExecResult where
  | ok (cpu : CPU)
  | panicked (msg : String)
deriving DecidableEq, Repr

/-- One iteration of the `loop` body of `CPU::execute_commands`: return if the
program counter is past the end; otherwise fetch the opcode, advance the
program counter by 1 (panicking on u16 overflow as a debug build does), and
dispatch on the opcode, reading one operand byte (bounds-checked) and
advancing once more for the two-byte instructions 0x69 and 0xA9. -/
def step (cpu : CPU) (commands : List Nat) : StepResult :=
  if hpc : commands.length ≤ cpu.program_counter then
    .done cpu
  else
    let command := commands.get ⟨cpu.program_counter, by omega⟩
    if 65535 < cpu.program_counter + 1 then .panicked pcOverflowMsg
    else
      let cpu : CPU := { cpu with program_counter := cpu.program_counter + 1 }
      if command = 0x69 then
        if hop : commands.length ≤ cpu.program_counter then .panicked indexOutOfBoundsMsg
        else
          let value := commands.get ⟨cpu.program_counter, by omega⟩
          let cpu := cpu.adc value
          if 65535 < cpu.program_counter + 1 then .panicked pcOverflowMsg
          else .ok { cpu with program_counter := cpu.program_counter + 1 }
      else if command = 0xA9 then
        if hop : commands.length ≤ cpu.program_counter then .panicked indexOutOfBoundsMsg
        else
          let value := commands.get ⟨cpu.program_counter, by omega⟩
          let cpu := cpu.lda value
          if 65535 < cpu.program_counter + 1 then .panicked pcOverflowMsg
          else .ok { cpu with program_counter := cpu.program_counter + 1 }
      else if command = 0xAA then
        .ok cpu.tax
      else
        .panicked unimplementedMsg

/-- `CPU::execute_commands`: iterate the loop body until it returns or
panics. -/
def execute_commands (cpu : CPU) (commands : List Nat) : ExecResult :=
  match hs : step cpu commands with
  | .done c => .ok c
  | .panicked msg => .panicked msg
  | .ok c => execute_commands c commands
termination_by commands.length - cpu.program_counter
decreasing_by
  have hb : cpu.program_counter < commands.length ∧
      cpu.program_counter < c.program_counter := by
    simp only [step] at hs
    split at hs
    · exact absurd hs (by simp)
    · refine ⟨by omega, ?_⟩
      split at hs
      · exact absurd hs (by simp)
      · split at hs
        · split at hs
          · exact absurd hs (by simp)
          · split at hs
            · exact absurd hs (by simp)
            · cases hs
              simp only [CPU.adc, CPU.add_to_accumulator, CPU.set_accumulator,
                CPU.update_zero_flag, CPU.update_negative_flag]
              omega
        · split at hs
          · split at hs
            · exact absurd hs (by simp)
            · split at hs
              · exact absurd hs (by simp)
              · cases hs
                simp only [CPU.lda, CPU.set_accumulator, CPU.update_zero_flag,
                  CPU.update_negative_flag]
                omega
          · split at hs
            · cases hs
              simp only [CPU.tax, CPU.update_zero_flag, CPU.update_negative_flag]
              omega
            · exact absurd hs (by simp)
  omega

/-- Accumulator of the final CPU state, when execution did not panic. -/
def finalAccumulator (r : ExecResult) : Option Nat :=
  match r with
  | .ok c => some c.accumulator
  | .panicked _ => none

/-- Overflow flag of the final CPU state, when execution did not panic. -/
def finalOverflow (r : ExecResult) : Option Bool :=
  match r with
  | .ok c => some c.status.overflow
  | .panicked _ => none

/-- Addressing-mode tags.  Modelled from the spec: `instruction.rs` imports
`AddressingMode` from a module that is missing from the sources; the spec
defines it as a closed enumeration of 13 variants. -/
inductive AddressingMode where
  | Immediate
  | ZeroPage
  | ZeroPageX
  | ZeroPageY
  | Absolute
  | AbsoluteX
  | AbsoluteY
  | Indirect
  | IndirectX
  | IndirectY
  | Accumulator
  | Relative
  | Implied
deriving DecidableEq, Repr

/-- Instruction descriptor, `struct Instruction` in `instruction.rs`. -/
structure Instruction where
  opcode : Nat
  len : Nat
  cycle : Nat
  addressing_mode : AddressingMode
deriving DecidableEq, Repr

/-- `Instruction::new`. -/
def Instruction.new (opcode len cycle : Nat) (addressing_mode : AddressingMode) : Instruction :=
  { opcode := opcode, len := len, cycle := cycle, addressing_mode := addressing_mode }

set_option maxHeartbeats 1000000 in
set_option maxRecDepth 10000 in
/-- `Instruction::from_code`: the 256-arm opcode match of `instruction.rs`,
embedded literal arm by literal arm as the equivalent conditional chain (the
operational meaning of a Rust `match` over integer literal patterns, tested in
source order); the final `none` models the
`unimplemented!("That code unimplemented")` catch-all arm. -/
def Instruction.from_code (code : Nat) : Option Instruction :=
  if code = 0x69 then some (Instruction.new code 2 2 AddressingMode.Immediate)
  else if code = 0x65 then some (Instruction.new code 2 3 AddressingMode.ZeroPage)
  else if code = 0x75 then some (Instruction.new code 2 4 AddressingMode.ZeroPageX)
  else if code = 0x6D then some (Instruction.new code 3 4 AddressingMode.Absolute)
  else if code = 0x7D then some (Instruction.new code 3 4 AddressingMode.AbsoluteX)
  else if code = 0x79 then some (Instruction.new code 3 4 AddressingMode.AbsoluteY)
  else if code = 0x61 then some (Instruction.new code 2 6 AddressingMode.IndirectX)
  else if code = 0x71 then some (Instruction.new code 2 5 AddressingMode.IndirectY)
  else if code = 0x29 then some (Instruction.new code 2 2 AddressingMode.Immediate)
  else if code = 0x25 then some (Instruction.new code 2 3 AddressingMode.ZeroPage)
  else if code = 0x35 then some (Instruction.new code 2 4 AddressingMode.ZeroPageX)
  else if code = 0x2D then some (Instruction.new code 3 4 AddressingMode.Absolute)
  else if code = 0x3D then some (Instruction.new code 3 4 AddressingMode.AbsoluteX)
  else if code = 0x39 then some (Instruction.new code 3 4 AddressingMode.AbsoluteY)
  else if code = 0x21 then some (Instruction.new code 2 6 AddressingMode.IndirectX)
  else if code = 0x31 then some (Instruction.new code 2 5 AddressingMode.IndirectY)
  else if code = 0x93 then some (Instruction.new code 2 8 AddressingMode.IndirectY)
  else if code = 0x9F then some (Instruction.new code 3 4 AddressingMode.AbsoluteY)
  else if code = 0x4B then some (Instruction.new code 2 2 AddressingMode.Immediate)
  else if code = 0x0B then some (Instruction.new code 2 2 AddressingMode.Immediate)
  else if code = 0x2B then some (Instruction.new code 2 2 AddressingMode.Immediate)
  else if code = 0x6B then some (Instruction.new code 2 2 AddressingMode.Immediate)
  else if code = 0x0A then some (Instruction.new code 1 2 AddressingMode.Accumulator)
  else if code = 0x06 then some (Instruction.new code 2 5 AddressingMode.ZeroPage)
  else if code = 0x16 then some (Instruction.new code 2 6 AddressingMode.ZeroPageX)
  else if code = 0x0E then some (Instruction.new code 3 6 AddressingMode.Absolute)
  else if code = 0x1E then some (Instruction.new code 3 7 AddressingMode.AbsoluteX)
  else if code = 0xCB then some (Instruction.new code 2 2 AddressingMode.Immediate)
  else if code = 0x90 then some (Instruction.new code 2 2 AddressingMode.Relative)
  else if code = 0xB0 then some (Instruction.new code 2 2 AddressingMode.Relative)
  else if code = 0xF0 then some (Instruction.new code 2 2 AddressingMode.Relative)
  else if code = 0x24 then some (Instruction.new code 2 3 AddressingMode.ZeroPage)
  else if code = 0x2C then some (Instruction.new code 3 4 AddressingMode.Absolute)
  else if code = 0x30 then some (Instruction.new code 2 2 AddressingMode.Relative)
  else if code = 0xD0 then some (Instruction.new code 2 2 AddressingMode.Relative)
  else if code = 0x10 then some (Instruction.new code 2 2 AddressingMode.Relative)
  else if code = 0x00 then some (Instruction.new code 1 7 AddressingMode.Implied)
  else if code = 0x50 then some (Instruction.new code 2 2 AddressingMode.Relative)
  else if code = 0x70 then some (Instruction.new code 2 2 AddressingMode.Relative)
  else if code = 0x18 then some (Instruction.new code 1 2 AddressingMode.Implied)
  else if code = 0xD8 then some (Instruction.new code 1 2 AddressingMode.Implied)
  else if code = 0x58 then some (Instruction.new code 1 2 AddressingMode.Implied)
  else if code = 0xB8 then some (Instruction.new code 1 2 AddressingMode.Implied)
  else if code = 0xC9 then some (Instruction.new code 2 2 AddressingMode.Immediate)
  else if code = 0xC5 then some (Instruction.new code 2 3 AddressingMode.ZeroPage)
  else if code = 0xD5 then some (Instruction.new code 2 4 AddressingMode.ZeroPageX)
  else if code = 0xCD then some (Instruction.new code 3 4 AddressingMode.Absolute)
  else if code = 0xDD then some (Instruction.new code 3 4 AddressingMode.AbsoluteX)
  else if code = 0xD9 then some (Instruction.new code 3 4 AddressingMode.AbsoluteY)
  else if code = 0xC1 then some (Instruction.new code 2 6 AddressingMode.IndirectX)
  else if code = 0xD1 then some (Instruction.new code 2 5 AddressingMode.IndirectY)
  else if code = 0xE0 then some (Instruction.new code 2 2 AddressingMode.Immediate)
  else if code = 0xE4 then some (Instruction.new code 2 3 AddressingMode.ZeroPage)
  else if code = 0xEC then some (Instruction.new code 3 4 AddressingMode.Absolute)
  else if code = 0xC0 then some (Instruction.new code 2 2 AddressingMode.Immediate)
  else if code = 0xC4 then some (Instruction.new code 2 3 AddressingMode.ZeroPage)
  else if code = 0xCC then some (Instruction.new code 3 4 AddressingMode.Absolute)
  else if code = 0xC7 then some (Instruction.new code 2 5 AddressingMode.ZeroPage)
  else if code = 0xD7 then some (Instruction.new code 2 6 AddressingMode.ZeroPageX)
  else if code = 0xCF then some (Instruction.new code 3 6 AddressingMode.Absolute)
  else if code = 0xDF then some (Instruction.new code 3 7 AddressingMode.AbsoluteX)
  else if code = 0xDB then some (Instruction.new code 3 7 AddressingMode.AbsoluteY)
  else if code = 0xD3 then some (Instruction.new code 2 8 AddressingMode.IndirectY)
  else if code = 0xC3 then some (Instruction.new code 2 8 AddressingMode.IndirectX)
  else if code = 0xC6 then some (Instruction.new code 2 5 AddressingMode.ZeroPage)
  else if code = 0xD6 then some (Instruction.new code 2 6 AddressingMode.ZeroPageX)
  else if code = 0xCE then some (Instruction.new code 3 6 AddressingMode.Absolute)
  else if code = 0xDE then some (Instruction.new code 3 7 AddressingMode.AbsoluteX)
  else if code = 0xCA then some (Instruction.new code 1 2 AddressingMode.Implied)
  else if code = 0x88 then some (Instruction.new code 1 2 AddressingMode.Implied)
  else if code = 0x49 then some (Instruction.new code 2 2 AddressingMode.Immediate)
  else if code = 0x45 then some (Instruction.new code 2 3 AddressingMode.ZeroPage)
  else if code = 0x55 then some (Instruction.new code 2 4 AddressingMode.ZeroPageX)
  else if code = 0x4D then some (Instruction.new code 3 4 AddressingMode.Absolute)
  else if code = 0x5D then some (Instruction.new code 3 4 AddressingMode.AbsoluteX)
  else if code = 0x59 then some (Instruction.new code 3 4 AddressingMode.AbsoluteY)
  else if code = 0x41 then some (Instruction.new code 2 6 AddressingMode.IndirectX)
  else if code = 0x51 then some (Instruction.new code 2 5 AddressingMode.IndirectY)
  else if code = 0xE6 then some (Instruction.new code 2 5 AddressingMode.ZeroPage)
  else if code = 0xF6 then some (Instruction.new code 2 6 AddressingMode.ZeroPageX)
  else if code = 0xEE then some (Instruction.new code 3 6 AddressingMode.Absolute)
  else if code = 0xFE then some (Instruction.new code 3 7 AddressingMode.AbsoluteX)
  else if code = 0xE8 then some (Instruction.new code 1 2 AddressingMode.Implied)
  else if code = 0xC8 then some (Instruction.new code 1 2 AddressingMode.Implied)
  else if code = 0xE7 then some (Instruction.new code 2 5 AddressingMode.ZeroPage)
  else if code = 0xF7 then some (Instruction.new code 2 6 AddressingMode.ZeroPageX)
  else if code = 0xEF then some (Instruction.new code 3 6 AddressingMode.Absolute)
  else if code = 0xFF then some (Instruction.new code 3 7 AddressingMode.AbsoluteX)
  else if code = 0xFB then some (Instruction.new code 3 7 AddressingMode.AbsoluteY)
  else if code = 0xE3 then some (Instruction.new code 2 8 AddressingMode.IndirectX)
  else if code = 0xF3 then some (Instruction.new code 2 8 AddressingMode.IndirectY)
  else if code = 0x4C then some (Instruction.new code 3 3 AddressingMode.Absolute)
  else if code = 0x6C then some (Instruction.new code 3 5 AddressingMode.Indirect)
  else if code = 0x20 then some (Instruction.new code 3 6 AddressingMode.Absolute)
  else if code = 0x02 then some (Instruction.new code 1 2 AddressingMode.Implied)
  else if code = 0x12 then some (Instruction.new code 1 2 AddressingMode.Implied)
  else if code = 0x22 then some (Instruction.new code 1 2 AddressingMode.Implied)
  else if code = 0x32 then some (Instruction.new code 1 2 AddressingMode.Implied)
  else if code = 0x42 then some (Instruction.new code 1 2 AddressingMode.Implied)
  else if code = 0x52 then some (Instruction.new code 1 2 AddressingMode.Implied)
  else if code = 0x62 then some (Instruction.new code 1 2 AddressingMode.Implied)
  else if code = 0x72 then some (Instruction.new code 1 2 AddressingMode.Implied)
  else if code = 0x92 then some (Instruction.new code 1 2 AddressingMode.Implied)
  else if code = 0xB2 then some (Instruction.new code 1 2 AddressingMode.Implied)
  else if code = 0xD2 then some (Instruction.new code 1 2 AddressingMode.Implied)
  else if code = 0xF2 then some (Instruction.new code 1 2 AddressingMode.Implied)
  else if code = 0xBB then some (Instruction.new code 3 2 AddressingMode.AbsoluteY)
  else if code = 0xA7 then some (Instruction.new code 2 3 AddressingMode.ZeroPage)
  else if code = 0xB7 then some (Instruction.new code 2 4 AddressingMode.ZeroPageY)
  else if code = 0xAF then some (Instruction.new code 3 4 AddressingMode.Absolute)
  else if code = 0xBF then some (Instruction.new code 3 4 AddressingMode.AbsoluteY)
  else if code = 0xA3 then some (Instruction.new code 2 6 AddressingMode.IndirectX)
  else if code = 0xB3 then some (Instruction.new code 2 5 AddressingMode.IndirectY)
  else if code = 0xAB then some (Instruction.new code 2 3 AddressingMode.Immediate)
  else if code = 0xA9 then some (Instruction.new code 2 2 AddressingMode.Immediate)
  else if code = 0xA5 then some (Instruction.new code 2 3 AddressingMode.ZeroPage)
  else if code = 0xB5 then some (Instruction.new code 2 4 AddressingMode.ZeroPageX)
  else if code = 0xAD then some (Instruction.new code 3 4 AddressingMode.Absolute)
  else if code = 0xBD then some (Instruction.new code 3 4 AddressingMode.AbsoluteX)
  else if code = 0xB9 then some (Instruction.new code 3 4 AddressingMode.AbsoluteY)
  else if code = 0xA1 then some (Instruction.new code 2 6 AddressingMode.IndirectX)
  else if code = 0xB1 then some (Instruction.new code 2 5 AddressingMode.IndirectY)
  else if code = 0xA2 then some (Instruction.new code 2 2 AddressingMode.Immediate)
  else if code = 0xA6 then some (Instruction.new code 2 3 AddressingMode.ZeroPage)
  else if code = 0xB6 then some (Instruction.new code 2 4 AddressingMode.ZeroPageY)
  else if code = 0xAE then some (Instruction.new code 3 4 AddressingMode.Absolute)
  else if code = 0xBE then some (Instruction.new code 3 4 AddressingMode.AbsoluteY)
  else if code = 0xA0 then some (Instruction.new code 2 2 AddressingMode.Immediate)
  else if code = 0xA4 then some (Instruction.new code 2 3 AddressingMode.ZeroPage)
  else if code = 0xB4 then some (Instruction.new code 2 4 AddressingMode.ZeroPageX)
  else if code = 0xAC then some (Instruction.new code 3 4 AddressingMode.Absolute)
  else if code = 0xBC then some (Instruction.new code 3 4 AddressingMode.AbsoluteX)
  else if code = 0x4A then some (Instruction.new code 1 2 AddressingMode.Accumulator)
  else if code = 0x46 then some (Instruction.new code 2 5 AddressingMode.ZeroPage)
  else if code = 0x56 then some (Instruction.new code 2 6 AddressingMode.ZeroPageX)
  else if code = 0x4E then some (Instruction.new code 3 6 AddressingMode.Absolute)
  else if code = 0x5E then some (Instruction.new code 3 7 AddressingMode.AbsoluteX)
  else if code = 0xEA then some (Instruction.new code 1 2 AddressingMode.Implied)
  else if code = 0x80 then some (Instruction.new code 2 2 AddressingMode.Immediate)
  else if code = 0x82 then some (Instruction.new code 2 2 AddressingMode.Immediate)
  else if code = 0x89 then some (Instruction.new code 2 2 AddressingMode.Immediate)
  else if code = 0xC2 then some (Instruction.new code 2 2 AddressingMode.Immediate)
  else if code = 0xE2 then some (Instruction.new code 2 2 AddressingMode.Immediate)
  else if code = 0x04 then some (Instruction.new code 2 3 AddressingMode.ZeroPage)
  else if code = 0x44 then some (Instruction.new code 2 3 AddressingMode.ZeroPage)
  else if code = 0x64 then some (Instruction.new code 2 3 AddressingMode.ZeroPage)
  else if code = 0x14 then some (Instruction.new code 2 4 AddressingMode.ZeroPageX)
  else if code = 0x34 then some (Instruction.new code 2 4 AddressingMode.ZeroPageX)
  else if code = 0x54 then some (Instruction.new code 2 4 AddressingMode.ZeroPageX)
  else if code = 0x74 then some (Instruction.new code 2 4 AddressingMode.ZeroPageX)
  else if code = 0xD4 then some (Instruction.new code 2 4 AddressingMode.ZeroPageX)
  else if code = 0xF4 then some (Instruction.new code 2 4 AddressingMode.ZeroPageX)
  else if code = 0x0C then some (Instruction.new code 3 4 AddressingMode.Absolute)
  else if code = 0x1C then some (Instruction.new code 3 4 AddressingMode.AbsoluteX)
  else if code = 0x3C then some (Instruction.new code 3 4 AddressingMode.AbsoluteX)
  else if code = 0x5C then some (Instruction.new code 3 4 AddressingMode.AbsoluteX)
  else if code = 0x7C then some (Instruction.new code 3 4 AddressingMode.AbsoluteX)
  else if code = 0xDC then some (Instruction.new code 3 4 AddressingMode.AbsoluteX)
  else if code = 0xFC then some (Instruction.new code 3 4 AddressingMode.AbsoluteX)
  else if code = 0x1A then some (Instruction.new code 1 2 AddressingMode.Implied)
  else if code = 0x3A then some (Instruction.new code 1 2 AddressingMode.Implied)
  else if code = 0x5A then some (Instruction.new code 1 2 AddressingMode.Implied)
  else if code = 0x7A then some (Instruction.new code 1 2 AddressingMode.Implied)
  else if code = 0xDA then some (Instruction.new code 1 2 AddressingMode.Implied)
  else if code = 0xFA then some (Instruction.new code 1 2 AddressingMode.Implied)
  else if code = 0x09 then some (Instruction.new code 2 2 AddressingMode.Immediate)
  else if code = 0x05 then some (Instruction.new code 2 3 AddressingMode.ZeroPage)
  else if code = 0x15 then some (Instruction.new code 2 4 AddressingMode.ZeroPageX)
  else if code = 0x0D then some (Instruction.new code 3 4 AddressingMode.Absolute)
  else if code = 0x1D then some (Instruction.new code 3 4 AddressingMode.AbsoluteX)
  else if code = 0x19 then some (Instruction.new code 3 4 AddressingMode.AbsoluteY)
  else if code = 0x01 then some (Instruction.new code 2 6 AddressingMode.IndirectX)
  else if code = 0x11 then some (Instruction.new code 2 5 AddressingMode.IndirectY)
  else if code = 0x48 then some (Instruction.new code 1 3 AddressingMode.Implied)
  else if code = 0x08 then some (Instruction.new code 1 3 AddressingMode.Implied)
  else if code = 0x68 then some (Instruction.new code 1 4 AddressingMode.Implied)
  else if code = 0x28 then some (Instruction.new code 1 4 AddressingMode.Implied)
  else if code = 0x27 then some (Instruction.new code 2 5 AddressingMode.ZeroPage)
  else if code = 0x37 then some (Instruction.new code 2 6 AddressingMode.ZeroPageX)
  else if code = 0x2F then some (Instruction.new code 3 6 AddressingMode.Absolute)
  else if code = 0x3F then some (Instruction.new code 3 7 AddressingMode.AbsoluteX)
  else if code = 0x3B then some (Instruction.new code 3 7 AddressingMode.AbsoluteY)
  else if code = 0x33 then some (Instruction.new code 2 8 AddressingMode.IndirectY)
  else if code = 0x23 then some (Instruction.new code 2 8 AddressingMode.IndirectX)
  else if code = 0x2A then some (Instruction.new code 1 2 AddressingMode.Accumulator)
  else if code = 0x26 then some (Instruction.new code 2 5 AddressingMode.ZeroPage)
  else if code = 0x36 then some (Instruction.new code 2 6 AddressingMode.ZeroPageX)
  else if code = 0x2E then some (Instruction.new code 3 6 AddressingMode.Absolute)
  else if code = 0x3E then some (Instruction.new code 3 7 AddressingMode.AbsoluteX)
  else if code = 0x6A then some (Instruction.new code 1 2 AddressingMode.Accumulator)
  else if code = 0x66 then some (Instruction.new code 2 5 AddressingMode.ZeroPage)
  else if code = 0x76 then some (Instruction.new code 2 6 AddressingMode.ZeroPageX)
  else if code = 0x6E then some (Instruction.new code 3 6 AddressingMode.Absolute)
  else if code = 0x7E then some (Instruction.new code 3 7 AddressingMode.AbsoluteX)
  else if code = 0x67 then some (Instruction.new code 2 5 AddressingMode.ZeroPage)
  else if code = 0x77 then some (Instruction.new code 2 6 AddressingMode.ZeroPageX)
  else if code = 0x6F then some (Instruction.new code 3 6 AddressingMode.Absolute)
  else if code = 0x7F then some (Instruction.new code 3 7 AddressingMode.AbsoluteX)
  else if code = 0x7B then some (Instruction.new code 3 7 AddressingMode.AbsoluteY)
  else if code = 0x63 then some (Instruction.new code 2 8 AddressingMode.IndirectX)
  else if code = 0x73 then some (Instruction.new code 2 8 AddressingMode.IndirectY)
  else if code = 0x40 then some (Instruction.new code 1 6 AddressingMode.Implied)
  else if code = 0x60 then some (Instruction.new code 1 6 AddressingMode.Implied)
  else if code = 0x87 then some (Instruction.new code 2 3 AddressingMode.ZeroPage)
  else if code = 0x97 then some (Instruction.new code 2 4 AddressingMode.ZeroPageY)
  else if code = 0x8F then some (Instruction.new code 3 4 AddressingMode.Absolute)
  else if code = 0x83 then some (Instruction.new code 2 6 AddressingMode.IndirectX)
  else if code = 0xE9 then some (Instruction.new code 2 2 AddressingMode.Immediate)
  else if code = 0xE5 then some (Instruction.new code 2 3 AddressingMode.ZeroPage)
  else if code = 0xF5 then some (Instruction.new code 2 4 AddressingMode.ZeroPageX)
  else if code = 0xED then some (Instruction.new code 3 4 AddressingMode.Absolute)
  else if code = 0xFD then some (Instruction.new code 3 4 AddressingMode.AbsoluteX)
  else if code = 0xF9 then some (Instruction.new code 3 4 AddressingMode.AbsoluteY)
  else if code = 0xE1 then some (Instruction.new code 2 6 AddressingMode.IndirectX)
  else if code = 0xF1 then some (Instruction.new code 2 5 AddressingMode.IndirectY)
  else if code = 0xEB then some (Instruction.new code 2 2 AddressingMode.Immediate)
  else if code = 0x38 then some (Instruction.new code 1 2 AddressingMode.Implied)
  else if code = 0xF8 then some (Instruction.new code 1 2 AddressingMode.Implied)
  else if code = 0x78 then some (Instruction.new code 1 2 AddressingMode.Implied)
  else if code = 0x9E then some (Instruction.new code 3 4 AddressingMode.AbsoluteY)
  else if code = 0x9C then some (Instruction.new code 3 4 AddressingMode.AbsoluteX)
  else if code = 0x07 then some (Instruction.new code 2 5 AddressingMode.ZeroPage)
  else if code = 0x17 then some (Instruction.new code 2 6 AddressingMode.ZeroPageX)
  else if code = 0x0F then some (Instruction.new code 3 6 AddressingMode.Absolute)
  else if code = 0x1F then some (Instruction.new code 3 7 AddressingMode.AbsoluteX)
  else if code = 0x1B then some (Instruction.new code 3 7 AddressingMode.AbsoluteY)
  else if code = 0x03 then some (Instruction.new code 2 8 AddressingMode.IndirectX)
  else if code = 0x13 then some (Instruction.new code 2 8 AddressingMode.IndirectY)
  else if code = 0x47 then some (Instruction.new code 2 5 AddressingMode.ZeroPage)
  else if code = 0x57 then some (Instruction.new code 2 6 AddressingMode.ZeroPageX)
  else if code = 0x4F then some (Instruction.new code 3 6 AddressingMode.Absolute)
  else if code = 0x5F then some (Instruction.new code 3 7 AddressingMode.AbsoluteX)
  else if code = 0x5B then some (Instruction.new code 3 7 AddressingMode.AbsoluteY)
  else if code = 0x43 then some (Instruction.new code 2 8 AddressingMode.IndirectX)
  else if code = 0x53 then some (Instruction.new code 2 8 AddressingMode.IndirectY)
  else if code = 0x85 then some (Instruction.new code 2 3 AddressingMode.ZeroPage)
  else if code = 0x95 then some (Instruction.new code 2 4 AddressingMode.ZeroPageX)
  else if code = 0x8D then some (Instruction.new code 3 4 AddressingMode.Absolute)
  else if code = 0x9D then some (Instruction.new code 3 5 AddressingMode.AbsoluteX)
  else if code = 0x99 then some (Instruction.new code 3 5 AddressingMode.AbsoluteY)
  else if code = 0x81 then some (Instruction.new code 2 6 AddressingMode.IndirectX)
  else if code = 0x91 then some (Instruction.new code 2 6 AddressingMode.IndirectY)
  else if code = 0x86 then some (Instruction.new code 2 3 AddressingMode.ZeroPage)
  else if code = 0x96 then some (Instruction.new code 2 4 AddressingMode.ZeroPageX)
  else if code = 0x8E then some (Instruction.new code 3 4 AddressingMode.Absolute)
  else if code = 0x84 then some (Instruction.new code 2 3 AddressingMode.ZeroPage)
  else if code = 0x94 then some (Instruction.new code 2 4 AddressingMode.ZeroPageX)
  else if code = 0x8C then some (Instruction.new code 3 4 AddressingMode.Absolute)
  else if code = 0x9B then some (Instruction.new code 3 2 AddressingMode.AbsoluteY)
  else if code = 0xAA then some (Instruction.new code 1 2 AddressingMode.Implied)
  else if code = 0xA8 then some (Instruction.new code 1 2 AddressingMode.Implied)
  else if code = 0xBA then some (Instruction.new code 1 2 AddressingMode.Implied)
  else if code = 0x8A then some (Instruction.new code 1 2 AddressingMode.Implied)
  else if code = 0x9A then some (Instruction.new code 1 2 AddressingMode.Implied)
  else if code = 0x98 then some (Instruction.new code 1 2 AddressingMode.Implied)
  else if code = 0x8B then some (Instruction.new code 2 3 AddressingMode.Immediate)
  else none

theorem adc_program_counter (cpu : CPU) (value : Nat) :
    (cpu.adc value).program_counter = cpu.program_counter := rfl

theorem lda_program_counter (cpu : CPU) (value : Nat) :
    (cpu.lda value).program_counter = cpu.program_counter := rfl

theorem tax_program_counter (cpu : CPU) :
    cpu.tax.program_counter = cpu.program_counter := rfl

theorem adc_status_one (cpu : CPU) (value : Nat) :
    (cpu.adc value).status.one = cpu.status.one := rfl

theorem lda_status_one (cpu : CPU) (value : Nat) :
    (cpu.lda value).status.one = cpu.status.one := rfl

theorem tax_status_one (cpu : CPU) :
    cpu.tax.status.one = cpu.status.one := rfl

/-- When the loop body falls through to the next iteration, the program
counter was in bounds and strictly increased. -/
theorem step_ok_bounds {cpu c : CPU} {commands : List Nat}
    (hs : step cpu commands = .ok c) :
    cpu.program_counter < commands.length ∧
      cpu.program_counter < c.program_counter := by
  simp only [step] at hs
  split at hs
  · exact absurd hs (by simp)
  · refine ⟨by omega, ?_⟩
    split at hs
    · exact absurd hs (by simp)
    · split at hs
      · split at hs
        · exact absurd hs (by simp)
        · split at hs
          · exact absurd hs (by simp)
          · cases hs
            simp only [adc_program_counter]
            omega
      · split at hs
        · split at hs
          · exact absurd hs (by simp)
          · split at hs
            · exact absurd hs (by simp)
            · cases hs
              simp only [lda_program_counter]
              omega
        · split at hs
          · cases hs
            simp only [tax_program_counter]
            omega
          · exact absurd hs (by simp)

/-- When the loop body falls through, the ONE flag is preserved: none of the
three handlers touches it. -/
theorem step_ok_one {cpu c : CPU} {commands : List Nat}
    (hs : step cpu commands = .ok c) (h1 : cpu.status.one = true) :
    c.status.one = true := by
  simp only [step] at hs
  split at hs
  · exact absurd hs (by simp)
  · split at hs
    · exact absurd hs (by simp)
    · split at hs
      · split at hs
        · exact absurd hs (by simp)
        · split at hs
          · exact absurd hs (by simp)
          · cases hs
            exact h1
      · split at hs
        · split at hs
          · exact absurd hs (by simp)
          · split at hs
            · exact absurd hs (by simp)
            · cases hs
              exact h1
        · split at hs
          · cases hs
            exact h1
          · exact absurd hs (by simp)

/-- The early return of the loop hands back the CPU state unchanged. -/
theorem step_done_eq {cpu c : CPU} {commands : List Nat}
    (hs : step cpu commands = .done c) : c = cpu := by
  simp only [step] at hs
  split at hs
  · cases hs
    rfl
  · split at hs
    · exact absurd hs (by simp)
    · split at hs
      · split at hs
        · exact absurd hs (by simp)
        · split at hs <;> exact absurd hs (by simp)
      · split at hs
        · split at hs
          · exact absurd hs (by simp)
          · split at hs <;> exact absurd hs (by simp)
        · split at hs
          · exact absurd hs (by simp)
          · exact absurd hs (by simp)

theorem execute_done_step {cpu c : CPU} {commands : List Nat}
    (h : step cpu commands = .done c) :
    execute_commands cpu commands = .ok c := by
  rw [execute_commands, h]

theorem execute_panicked_step {cpu : CPU} {msg : String} {commands : List Nat}
    (h : step cpu commands = .panicked msg) :
    execute_commands cpu commands = .panicked msg := by
  rw [execute_commands, h]

theorem execute_ok_step {cpu c : CPU} {commands : List Nat}
    (h : step cpu commands = .ok c) :
    execute_commands cpu commands = execute_commands c commands := by
  rw [execute_commands, h]

theorem land_two_pow_bne (n i : Nat) : ((n &&& 2 ^ i) != 0) = n.testBit i := by
  rw [Nat.and_two_pow]
  cases h : n.testBit i
  · simp
  · simp only [Bool.toNat_true, one_mul, bne_iff_ne, ne_eq]
    exact (Nat.two_pow_pos i).ne'

theorem land128_bne (n : Nat) : ((n &&& 128) != 0) = n.testBit 7 := by
  have h := land_two_pow_bne n 7
  norm_num at h
  exact h

theorem land256_bne_iff (n : Nat) (h : n < 512) : ((n &&& 256) != 0) = true ↔ 255 < n := by
  have h2 := land_two_pow_bne n 8
  norm_num at h2
  rw [h2, Nat.testBit_to_div_mod]
  simp only [decide_eq_true_eq]
  omega

theorem adc_status_carry (cpu : CPU) (value : Nat) :
    (cpu.adc value).status.carry =
      (((cpu.accumulator + value + (if cpu.status.carry then 1 else 0)) &&& 256) != 0) := rfl

theorem adc_status_overflow (cpu : CPU) (value : Nat) :
    (cpu.adc value).status.overflow =
      (((cpu.accumulator + value + (if cpu.status.carry then 1 else 0)) &&& 128) != 0) := rfl

theorem adc_accumulator (cpu : CPU) (value : Nat) :
    (cpu.adc value).accumulator =
      (cpu.accumulator + value + (if cpu.status.carry then 1 else 0)) % 256 := rfl

/-- C1 counterexample: with accumulator 0 and Carry clear (the power-on state),
adding the operand byte 0x80 sets the Overflow flag even though the accumulator
(sign bit 0) and the operand (sign bit 1) do not have the same sign bit, so no
two's-complement signed overflow occurs.  The claimed equivalence is false at
this input. -/
theorem adc_overflow_signed_counterexample :
    ¬ (((CPU.new.adc 128).status.overflow = true) ↔
        (Nat.testBit CPU.new.accumulator 7 = Nat.testBit 128 7 ∧
          Nat.testBit (CPU.new.adc 128).accumulator 7 ≠ Nat.testBit CPU.new.accumulator 7)) := by
  decide

/-- C1 (amended): for every CPU state and operand byte, add-with-carry sets the
Overflow flag exactly when bit 7 of the resulting accumulator byte (the low
byte of the 9-bit sum) is 1 — the code computes `sum & 128 != 0`, mirroring the
Negative flag of the result, not two's-complement signed overflow. -/
theorem adc_overflow_eq_result_bit7 :
    ∀ (cpu : CPU) (value : Nat),
      (cpu.adc value).status.overflow = true ↔
        Nat.testBit (cpu.adc value).accumulator 7 = true := by
  intro cpu value
  rw [adc_status_overflow, adc_accumulator, land128_bne,
    show (256 : Nat) = 2 ^ 8 by norm_num, Nat.testBit_mod_two_pow]
  simp

/-- C4: for every CPU state and operand byte, add-with-carry sets the Carry
flag exactly when the 9-bit sum of the operand, the accumulator and the
incoming carry bit exceeds 0xFF. -/
theorem adc_carry_iff_sum_exceeds_255 :
    ∀ (cpu : CPU) (value : Nat),
      cpu.accumulator < 256 → value < 256 →
      ((cpu.adc value).status.carry = true ↔
        255 < value + cpu.accumulator + (if cpu.status.carry then 1 else 0)) := by
  intro cpu value h1 h2
  rw [adc_status_carry, land256_bne_iff]
  · cases hb : cpu.status.carry <;> simp <;> omega
  · cases hb : cpu.status.carry <;> simp <;> omega

/-- Witness for C4 at a concrete input: accumulator 200 with Carry set, operand
100; the 9-bit sum is 301 > 255 and the Carry flag comes out set. -/
theorem adc_carry_iff_sum_exceeds_255_witness :
    (((CPU.new.lda 200).set_carry_flag true).adc 100).status.carry = true ↔
      255 < 100 + ((CPU.new.lda 200).set_carry_flag true).accumulator +
        (if ((CPU.new.lda 200).set_carry_flag true).status.carry then 1 else 0) :=
  adc_carry_iff_sum_exceeds_255 ((CPU.new.lda 200).set_carry_flag true) 100
    (by decide) (by decide)

/-- C5: after each implemented result-producing operation (lda, adc, tax) the
Zero flag equals "the result byte is 0" and the Negative flag equals "bit 7 of
the result byte is 1", where the result byte is the new accumulator for
lda/adc and the new register X for tax. -/
theorem result_zero_negative_flags :
    ∀ (cpu : CPU) (value : Nat),
      ((cpu.lda value).status.zero = true ↔ (cpu.lda value).accumulator = 0) ∧
      ((cpu.lda value).status.negative = true ↔
        Nat.testBit (cpu.lda value).accumulator 7 = true) ∧
      ((cpu.adc value).status.zero = true ↔ (cpu.adc value).accumulator = 0) ∧
      ((cpu.adc value).status.negative = true ↔
        Nat.testBit (cpu.adc value).accumulator 7 = true) ∧
      (cpu.tax.status.zero = true ↔ cpu.tax.register_x = 0) ∧
      (cpu.tax.status.negative = true ↔ Nat.testBit cpu.tax.register_x 7 = true) := by
  intro cpu value
  refine ⟨?_, ?_, ?_, ?_, ?_, ?_⟩ <;>
    simp [CPU.lda, CPU.adc, CPU.tax, CPU.set_accumulator, CPU.add_to_accumulator,
      CPU.update_zero_flag, CPU.update_negative_flag, land128_bne]

/-- C10: tax changes only register X and the Zero and Negative flags; the
accumulator, register Y, stack pointer, program counter and the Carry,
Overflow, InterruptDisable, DecimalMode, Break and ONE flags are unchanged. -/
theorem tax_frame :
    ∀ cpu : CPU,
      cpu.tax.accumulator = cpu.accumulator ∧
      cpu.tax.register_y = cpu.register_y ∧
      cpu.tax.stack_pointer = cpu.stack_pointer ∧
      cpu.tax.program_counter = cpu.program_counter ∧
      cpu.tax.status.carry = cpu.status.carry ∧
      cpu.tax.status.overflow = cpu.status.overflow ∧
      cpu.tax.status.interrupt_disable = cpu.status.interrupt_disable ∧
      cpu.tax.status.decimal_mode = cpu.status.decimal_mode ∧
      cpu.tax.status.brk = cpu.status.brk ∧
      cpu.tax.status.one = cpu.status.one :=
  fun _ => ⟨rfl, rfl, rfl, rfl, rfl, rfl, rfl, rfl, rfl, rfl⟩

set_option maxHeartbeats 4000000 in
set_option maxRecDepth 100000 in
/-- C3: instruction-descriptor lookup is total over the full opcode byte
range: every one of the 256 possible opcode values returns a descriptor, so
the `unimplemented!` catch-all arm of `from_code` is unreachable for byte
inputs. -/
theorem from_code_total :
    ∀ code : Fin 256, (Instruction.from_code code.val).isSome = true := by
  decide

/-- Strong induction on the distance left to run: a successful run of
`execute_commands` preserves the ONE flag. -/
theorem execute_preserves_one_aux :
    ∀ (n : Nat) (cpu : CPU) (commands : List Nat) (c : CPU),
      commands.length - cpu.program_counter ≤ n →
      cpu.status.one = true →
      execute_commands cpu commands = .ok c → c.status.one = true := by
  intro n
  induction n with
  | zero =>
    intro cpu commands c hn h1 h2
    have hd : step cpu commands = .done cpu := by
      simp only [step]
      rw [dif_pos (by omega)]
    rw [execute_done_step hd] at h2
    cases h2
    exact h1
  | succ n ih =>
    intro cpu commands c hn h1 h2
    cases hstep : step cpu commands with
    | ok c1 =>
      rw [execute_ok_step hstep] at h2
      have hb := step_ok_bounds hstep
      exact ih c1 commands c (by omega) (step_ok_one hstep h1) h2
    | done c1 =>
      rw [execute_done_step hstep] at h2
      cases h2
      rw [step_done_eq hstep]
      exact h1
    | panicked msg =>
      rw [execute_panicked_step hstep] at h2
      exact absurd h2 (by simp)

/-- C6: the hardware-constant ONE bit (bit 5 of the status register) is set in
the state produced by `CPU::new()` and remains set across any successful run
of `execute_commands`: no implemented operation clears it. -/
theorem one_flag_invariant :
    CPU.new.status.one = true ∧
      ∀ (cpu : CPU) (commands : List Nat) (c : CPU),
        cpu.status.one = true →
        execute_commands cpu commands = .ok c → c.status.one = true :=
  ⟨rfl, fun cpu commands c h1 h2 =>
    execute_preserves_one_aux (commands.length - cpu.program_counter) cpu commands c
      (Nat.le_refl _) h1 h2⟩

/-- Witness for C6: running [0xA9, 0x05] from power-on succeeds and the final
state keeps the ONE bit set. -/
theorem one_flag_invariant_witness :
    ({ program_counter := 2, stack_pointer := 0, accumulator := 5, register_x := 0,
       register_y := 0,
       status := { carry := false, zero := false, interrupt_disable := false,
                   decimal_mode := false, brk := false, one := true,
                   overflow := false, negative := false } } : CPU).status.one = true :=
  one_flag_invariant.2 CPU.new [0xA9, 5] _ rfl (by
    rw [@execute_ok_step CPU.new _ [0xA9, 5] rfl]
    exact execute_done_step rfl)

/-- C2 counterexample: executing the one-byte program [0x00] reaches an opcode
whose semantics are not modeled, and `execute_commands` aborts through the
`unimplemented!` panic (the `panicked` constructor models the Rust panic
raised by the diverging `execute_commands`, whose return type `()` has no
error channel) — an unrecoverable crash, not a catchable result value. -/
theorem unimplemented_opcode_panics_counterexample :
    execute_commands CPU.new [0x00] = .panicked unimplementedMsg :=
  execute_panicked_step rfl

/-- C2 (amended): when execution reaches an opcode other than the three
implemented ones (0x69, 0xA9, 0xAA), `execute_commands` aborts through the
`unimplemented!("That opcode unimplemented")` panic — it is not a silent
no-op, but it is a panic (process abort), not an explicit catchable result
value distinguishing success from a named failure kind. -/
theorem unimplemented_opcode_panics :
    ∀ (cpu : CPU) (commands : List Nat) (h : cpu.program_counter < commands.length),
      cpu.program_counter + 1 ≤ 65535 →
      commands.get ⟨cpu.program_counter, h⟩ ≠ 0x69 →
      commands.get ⟨cpu.program_counter, h⟩ ≠ 0xA9 →
      commands.get ⟨cpu.program_counter, h⟩ ≠ 0xAA →
      execute_commands cpu commands = .panicked unimplementedMsg := by
  intro cpu commands h hpc h69 hA9 hAA
  have hs : step cpu commands = .panicked unimplementedMsg := by
    simp only [step]
    rw [dif_neg (by omega), if_neg (by omega), if_neg h69, if_neg hA9, if_neg hAA]
  exact execute_panicked_step hs

/-- Witness for C2 (amended) at a concrete input: the KIL-class opcode 0x02 is
not one of the three implemented opcodes, so the run aborts with the
`unimplemented!` panic. -/
theorem unimplemented_opcode_panics_witness :
    execute_commands CPU.new [0x02] = .panicked unimplementedMsg :=
  unimplemented_opcode_panics CPU.new [0x02] (by decide) (by decide) (by decide)
    (by decide) (by decide)

set_option maxRecDepth 10000 in
/-- C7: whenever the loop body completes an instruction (none of the three
implemented handlers redirects the program counter), the program counter has
advanced by exactly the `len` field of that opcode's descriptor in the
instruction table: 2 for 0x69 and 0xA9, 1 for 0xAA. -/
theorem step_advances_by_descriptor_len :
    ∀ (cpu : CPU) (commands : List Nat) (c : CPU) (inst : Instruction)
      (h : cpu.program_counter < commands.length),
      step cpu commands = .ok c →
      Instruction.from_code (commands.get ⟨cpu.program_counter, h⟩) = some inst →
      c.program_counter = cpu.program_counter + inst.len := by
  intro cpu commands c inst h hs hinst
  simp only [step] at hs
  split at hs
  · exact absurd hs (by simp)
  · split at hs
    · exact absurd hs (by simp)
    · split at hs
      · rename_i hcmd
        split at hs
        · exact absurd hs (by simp)
        · split at hs
          · exact absurd hs (by simp)
          · cases hs
            rw [hcmd] at hinst
            rw [show Instruction.from_code 0x69 =
                some (Instruction.new 0x69 2 2 AddressingMode.Immediate) from rfl] at hinst
            cases hinst
            simp only [adc_program_counter, Instruction.new]
      · split at hs
        · rename_i hcmd
          split at hs
          · exact absurd hs (by simp)
          · split at hs
            · exact absurd hs (by simp)
            · cases hs
              rw [hcmd] at hinst
              rw [show Instruction.from_code 0xA9 =
                  some (Instruction.new 0xA9 2 2 AddressingMode.Immediate) from rfl] at hinst
              cases hinst
              simp only [lda_program_counter, Instruction.new]
        · split at hs
          · rename_i hcmd
            cases hs
            rw [hcmd] at hinst
            rw [show Instruction.from_code 0xAA =
                some (Instruction.new 0xAA 1 2 AddressingMode.Implied) from rfl] at hinst
            cases hinst
            simp only [tax_program_counter, Instruction.new]
          · exact absurd hs (by simp)

set_option maxRecDepth 10000 in
/-- Witness for C7 at a concrete input: one step of [0xA9, 0x07] from power-on
advances the program counter by the `len` = 2 of opcode 0xA9's descriptor. -/
theorem step_advances_by_descriptor_len_witness :
    ({ program_counter := 2, stack_pointer := 0, accumulator := 7, register_x := 0,
       register_y := 0,
       status := { carry := false, zero := false, interrupt_disable := false,
                   decimal_mode := false, brk := false, one := true,
                   overflow := false, negative := false } } : CPU).program_counter =
      CPU.new.program_counter + (Instruction.new 0xA9 2 2 AddressingMode.Immediate).len := by
  refine step_advances_by_descriptor_len CPU.new [0xA9, 7] _ _ (by decide) rfl ?_
  decide

/-- C8: from the power-on state with the Carry flag pre-set, executing
[0xA9, 20, 0x69, 40] (load 20, add-with-carry 40) leaves the accumulator
equal to 61 = 20 + 40 + 1. -/
theorem execute_adc_with_carry_accumulator_61 :
    finalAccumulator
      (execute_commands (CPU.new.set_carry_flag true) [0xA9, 20, 0x69, 40]) = some 61 := by
  have h1 : step (CPU.new.set_carry_flag true) [0xA9, 20, 0x69, 40] =
      .ok ⟨2, 0, 20, 0, 0, ⟨true, false, false, false, false, true, false, false⟩⟩ := by
    decide
  have h2 : step (⟨2, 0, 20, 0, 0, ⟨true, false, false, false, false, true, false, false⟩⟩ : CPU)
      [0xA9, 20, 0x69, 40] =
      .ok ⟨4, 0, 61, 0, 0, ⟨false, false, false, false, false, true, false, false⟩⟩ := by
    decide
  have h3 : step (⟨4, 0, 61, 0, 0, ⟨false, false, false, false, false, true, false, false⟩⟩ : CPU)
      [0xA9, 20, 0x69, 40] =
      .done ⟨4, 0, 61, 0, 0, ⟨false, false, false, false, false, true, false, false⟩⟩ := by
    decide
  rw [execute_ok_step h1, execute_ok_step h2, execute_done_step h3]
  rfl

/-- C9: from the power-on state, executing [0xA9, 255, 0x69, 129] leaves the
accumulator equal to 128 and the Overflow flag set. -/
theorem execute_adc_overflow_accumulator_128 :
    finalAccumulator (execute_commands CPU.new [0xA9, 255, 0x69, 129]) = some 128 ∧
      finalOverflow (execute_commands CPU.new [0xA9, 255, 0x69, 129]) = some true := by
  have h1 : step CPU.new [0xA9, 255, 0x69, 129] =
      .ok ⟨2, 0, 255, 0, 0, ⟨false, false, false, false, false, true, false, true⟩⟩ := by
    decide
  have h2 : step (⟨2, 0, 255, 0, 0, ⟨false, false, false, false, false, true, false, true⟩⟩ : CPU)
      [0xA9, 255, 0x69, 129] =
      .ok ⟨4, 0, 128, 0, 0, ⟨true, false, false, false, false, true, true, true⟩⟩ := by
    decide
  have h3 : step (⟨4, 0, 128, 0, 0, ⟨true, false, false, false, false, true, true, true⟩⟩ : CPU)
      [0xA9, 255, 0x69, 129] =
      .done ⟨4, 0, 128, 0, 0, ⟨true, false, false, false, false, true, true, true⟩⟩ := by
    decide
  have hex : execute_commands CPU.new [0xA9, 255, 0x69, 129] =
      .ok ⟨4, 0, 128, 0, 0, ⟨true, false, false, false, false, true, true, true⟩⟩ := by
    rw [execute_ok_step h1, execute_ok_step h2]
    exact execute_done_step h3
  rw [hex]
  exact ⟨rfl, rfl⟩

end Nes
